import Mathlib

/-!
Shallow embedding of `fault.go` (package `fault`), a fault-injection layer
for HTTP handlers.

Modelling choices:

* A `float64` drawn from the shared random source, and an injection ratio,
  are modelled as rationals (`ℚ`): the only operation the code performs on
  them is the order comparison `<`, which is exact.
* Randomness is explicit: every handler receives the list of values the
  shared random source will produce next, in order.  Drawing one value
  consumes the head of the list; a handler that needs a draw when the list
  is empty returns `none` (this never happens for the real infinite source,
  but it lets us count draws exactly).
* The observable behaviour of one request is a `Trace`: the ordered list of
  externally visible actions (`next.ServeHTTP`, `time.Sleep`,
  `w.WriteHeader`, `w.Write`), the way the handler finished (normal return
  or a panic carrying a value), and the random values left unconsumed.
* `time.Duration` is an `Int` (int64 nanoseconds); an HTTP status code is
  an `Int`.
-/

namespace fault

set_option linter.dupNamespace false

/-- One externally visible action performed while handling a request. -/
inductive Event
  /-- `next.ServeHTTP(w, r)`: the downstream handler is invoked with the
  original request and response writer. -/
  | callDownstream
  /-- `time.Sleep(d)`: the handling goroutine is suspended for `d`
  nanoseconds. -/
  | sleep (d : Int)
  /-- `w.WriteHeader(code)`: the status code is written to the response. -/
  | writeHeader (code : Int)
  /-- `w.Write([]byte(body))`: body bytes are written to the response. -/
  | write (body : String)
  deriving DecidableEq, Repr

/-- A value carried by a Go `panic`.  The code only ever panics with the
sentinel `http.ErrAbortHandler`; `other` represents any different value a
panic could in principle carry. -/
inductive PanicValue
  | errAbortHandler
  | other (tag : String)
  deriving DecidableEq, Repr

/-- How the handling of one request finished. -/
inductive Outcome
  /-- The handler function returned normally. -/
  | normal
  /-- The handler panicked with the given value: the request-handling
  goroutine terminates abnormally, with no further status or body
  written. -/
  | panicked (v : PanicValue)
  deriving DecidableEq, Repr

/-- The observable behaviour of one request: the actions in order, the way
the handler finished, and the random draws left unconsumed by this
handler. -/
structure Trace where
  events : List Event
  outcome : Outcome
  rands : List ℚ
  deriving DecidableEq, Repr

/-- `decide` from `fault.go` lines 14–19: under the shared mutex it draws one
value `v` from the shared source and returns `r.Float64() < ratio`.  The
drawn value is the explicit second argument here; the callers below take it
from the head of the pending-draws list. -/
def decide (ratio : ℚ) (v : ℚ) : Bool :=
  Decidable.decide (v < ratio)

/-- The `Fault` interface: `Handle(w, r)` — modelled as the function from
the pending random draws to the resulting trace. -/
def Fault : Type := List ℚ → Option Trace

/-- The generic wrapper struct `Handler` (fields used by its `Handler`
method: the bound fault `f` and `RandomRatio`; the struct's private `r` and
`mu` are the random source and its lock, which the draws list models). -/
structure Handler where
  f : Fault
  RandomRatio : ℚ

/-- `Handler.Handler` from `fault.go` lines 37–46, exactly as written there:
`if r.Float64() < f.RandomRatio { next.ServeHTTP(w, r); return }` and
otherwise `h.f.Handle(w, R)` — note the condition is NOT negated, unlike
every variant below, so a draw below the ratio delegates downstream and a
draw at or above it runs the bound fault.  (The Go body references the
receiver's fields through undeclared names `f` and `R`; they are read as
`h` and `r`, the only identifiers in scope they can mean.)  The draw is
taken from the shared source; running the bound fault prepends nothing and
simply continues on the remaining draws. -/
def Handler.Handler (h : Handler) : List ℚ → Option Trace
  | [] => none
  | v :: rest =>
    if v < h.RandomRatio then
      some ⟨[Event.callDownstream], Outcome.normal, rest⟩
    else
      h.f rest

/-- The `Delay` struct (`fault.go` lines 52–61).  Its `Handle` method reads
`f.RandomRatio`, so the ratio is a field here even though the Go struct
literal omits it. -/
structure Delay where
  Duration : Int
  Afterward : Bool
  RandomRatio : ℚ

/-- `Delay.Handle` from `fault.go` lines 64–80: if `!decide(f.RandomRatio)`
delegate downstream and return; otherwise sleep after the downstream call
when `Afterward`, and before it when not. -/
def Delay.Handle (f : Delay) : List ℚ → Option Trace
  | [] => none
  | v :: rest =>
    if !(decide f.RandomRatio v) then
      some ⟨[Event.callDownstream], Outcome.normal, rest⟩
    else if f.Afterward then
      some ⟨[Event.callDownstream, Event.sleep f.Duration], Outcome.normal, rest⟩
    else
      some ⟨[Event.sleep f.Duration, Event.callDownstream], Outcome.normal, rest⟩

/-- The placeholder body used when `StatusText` is empty
(`fault.go` line 110). -/
def placeholderStatusText : String :=
  "fault: pseudo status text is injected"

/-- The `Error` struct (`fault.go` lines 86–98). -/
structure Error where
  StatusCode : Int
  StatusText : String
  RandomRatio : ℚ

/-- `Error.Handler` from `fault.go` lines 101–116: if not triggered delegate
downstream; otherwise write `StatusCode` as the status and `StatusText` (or
the placeholder when it is empty) as the body, never calling downstream. -/
def Error.Handler (f : Error) : List ℚ → Option Trace
  | [] => none
  | v :: rest =>
    if !(decide f.RandomRatio v) then
      some ⟨[Event.callDownstream], Outcome.normal, rest⟩
    else
      let statusText := if f.StatusText = "" then placeholderStatusText else f.StatusText
      some ⟨[Event.writeHeader f.StatusCode, Event.write statusText], Outcome.normal, rest⟩

/-- The `DelayWithError` struct (`fault.go` lines 122–133). -/
structure DelayWithError where
  Duration : Int
  StatusCode : Int
  StatusText : String
  RandomRatio : ℚ

/-- `DelayWithError.Handler` from `fault.go` lines 136–152: if not triggered
delegate downstream; otherwise sleep for `Duration`, then write the status
and the body exactly as `Error` does, never calling downstream. -/
def DelayWithError.Handler (f : DelayWithError) : List ℚ → Option Trace
  | [] => none
  | v :: rest =>
    if !(decide f.RandomRatio v) then
      some ⟨[Event.callDownstream], Outcome.normal, rest⟩
    else
      let statusText := if f.StatusText = "" then placeholderStatusText else f.StatusText
      some ⟨[Event.sleep f.Duration, Event.writeHeader f.StatusCode,
             Event.write statusText], Outcome.normal, rest⟩

/-- The `Abort` struct (`fault.go` lines 158–163). -/
structure Abort where
  RandomRatio : ℚ

/-- `Abort.Handler` from `fault.go` lines 166–177: if not triggered delegate
downstream; otherwise `panic(http.ErrAbortHandler)` — nothing is written
and the handler does not return normally. -/
def Abort.Handler (f : Abort) : List ℚ → Option Trace
  | [] => none
  | v :: rest =>
    if !(decide f.RandomRatio v) then
      some ⟨[Event.callDownstream], Outcome.normal, rest⟩
    else
      some ⟨[], Outcome.panicked PanicValue.errAbortHandler, rest⟩

/-- The `DelayWithAbort` struct (`fault.go` lines 182–189). -/
structure DelayWithAbort where
  Duration : Int
  RandomRatio : ℚ

/-- `DelayWithAbort.Handler` from `fault.go` lines 192–203: if not triggered
delegate downstream; otherwise sleep for `Duration` then
`panic(http.ErrAbortHandler)`. -/
def DelayWithAbort.Handler (f : DelayWithAbort) : List ℚ → Option Trace
  | [] => none
  | v :: rest =>
    if !(decide f.RandomRatio v) then
      some ⟨[Event.callDownstream], Outcome.normal, rest⟩
    else
      some ⟨[Event.sleep f.Duration], Outcome.panicked PanicValue.errAbortHandler, rest⟩

/-- C1: `decide(ratio)` on a draw `v` in `[0, 1)` returns true iff `v < ratio`;
hence every ratio at most 0 never triggers and every ratio at least 1 always
triggers. -/
theorem decide_spec (ratio v : ℚ) (h0 : 0 ≤ v) (h1 : v < 1) :
    (decide ratio v = true ↔ v < ratio) ∧
    (ratio ≤ 0 → decide ratio v = false) ∧
    (1 ≤ ratio → decide ratio v = true) := by
  refine ⟨by simp [fault.decide], ?_, ?_⟩
  · intro hr
    simp only [fault.decide, decide_eq_false_iff_not, not_lt]
    exact hr.trans h0
  · intro hr
    simp only [fault.decide, decide_eq_true_eq]
    exact h1.trans_le hr

/-- Witness for C1 at ratio `1/2`, draw `1/3`. -/
theorem decide_spec_witness :
    ((0 : ℚ) ≤ 1/3 ∧ (1/3 : ℚ) < 1) ∧
    ((decide (1/2) (1/3) = true ↔ (1/3 : ℚ) < 1/2) ∧
     ((1/2 : ℚ) ≤ 0 → decide (1/2) (1/3) = false) ∧
     (1 ≤ (1/2 : ℚ) → decide (1/2) (1/3) = true)) :=
  ⟨⟨by norm_num, by norm_num⟩, decide_spec (1/2) (1/3) (by norm_num) (by norm_num)⟩

/-- C2 (code bug, evaluated at the failing input): with `RandomRatio = 1` the
draw `1/2` triggers (`decide 1 (1/2) = true`), yet the generic wrapper
`Handler.Handler` delegates to the downstream handler and never runs the
bound fault — the opposite of the claimed (and spec'd) behaviour, because
the condition on line 39 of `fault.go` is not negated as it is in every
variant's own handler. -/
theorem Handler_Handler_inverted :
    decide 1 (1/2) = true ∧
    Handler.Handler ⟨Abort.Handler ⟨1⟩, 1⟩ [1/2] =
      some ⟨[Event.callDownstream], Outcome.normal, []⟩ := by
  constructor
  · norm_num [fault.decide]
  · norm_num [fault.Handler.Handler]

/-- C3: a triggered `Error` never calls downstream; it writes `StatusCode`
as the status and, as the body, `StatusText` when non-empty and the exact
placeholder string `"fault: pseudo status text is injected"` when empty. -/
theorem Error_Handler_triggered (f : Error) (v : ℚ) (rest : List ℚ)
    (h : decide f.RandomRatio v = true) :
    f.Handler (v :: rest) =
      some ⟨[Event.writeHeader f.StatusCode,
             Event.write (if f.StatusText = "" then placeholderStatusText else f.StatusText)],
            Outcome.normal, rest⟩ ∧
    (∀ t, f.Handler (v :: rest) = some t → Event.callDownstream ∉ t.events) ∧
    (f.StatusText = "" → f.Handler (v :: rest) =
      some ⟨[Event.writeHeader f.StatusCode,
             Event.write "fault: pseudo status text is injected"], Outcome.normal, rest⟩) ∧
    (f.StatusText ≠ "" → f.Handler (v :: rest) =
      some ⟨[Event.writeHeader f.StatusCode, Event.write f.StatusText],
            Outcome.normal, rest⟩) := by
  have he : f.Handler (v :: rest) =
      some ⟨[Event.writeHeader f.StatusCode,
             Event.write (if f.StatusText = "" then placeholderStatusText else f.StatusText)],
            Outcome.normal, rest⟩ := by
    simp [Error.Handler, h]
  refine ⟨he, ?_, ?_, ?_⟩
  · intro t ht
    rw [he] at ht
    injection ht with ht
    subst ht
    simp
  · intro hst
    rw [he, if_pos hst, placeholderStatusText]
  · intro hst
    rw [he, if_neg hst]

/-- Witness for C3: `Error` with status 503 and empty `StatusText`, ratio 1,
draw `1/2`. -/
theorem Error_Handler_triggered_witness :
    decide (1 : ℚ) (1/2) = true ∧
    ((Error.Handler ⟨503, "", 1⟩ [1/2] =
        some ⟨[Event.writeHeader 503,
               Event.write (if ("" : String) = "" then placeholderStatusText else "")],
              Outcome.normal, []⟩) ∧
     (∀ t, Error.Handler ⟨503, "", 1⟩ [1/2] = some t →
        Event.callDownstream ∉ t.events) ∧
     (("" : String) = "" → Error.Handler ⟨503, "", 1⟩ [1/2] =
        some ⟨[Event.writeHeader 503,
               Event.write "fault: pseudo status text is injected"], Outcome.normal, []⟩) ∧
     (("" : String) ≠ "" → Error.Handler ⟨503, "", 1⟩ [1/2] =
        some ⟨[Event.writeHeader 503, Event.write ""], Outcome.normal, []⟩)) :=
  ⟨by norm_num [fault.decide],
   Error_Handler_triggered ⟨503, "", 1⟩ (1/2) [] (by norm_num [fault.decide])⟩

/-- C4: a triggered `Abort` never calls downstream, writes no status and no
body, and ends the request's handling abnormally (a panic, not a normal
return). -/
theorem Abort_Handler_triggered (f : Abort) (v : ℚ) (rest : List ℚ)
    (h : decide f.RandomRatio v = true) :
    f.Handler (v :: rest) =
      some ⟨[], Outcome.panicked PanicValue.errAbortHandler, rest⟩ ∧
    (∀ t, f.Handler (v :: rest) = some t →
      t.events = [] ∧ t.outcome ≠ Outcome.normal) := by
  have he : f.Handler (v :: rest) =
      some ⟨[], Outcome.panicked PanicValue.errAbortHandler, rest⟩ := by
    simp [Abort.Handler, h]
  refine ⟨he, ?_⟩
  intro t ht
  rw [he] at ht
  injection ht with ht
  subst ht
  simp

/-- Witness for C4: `Abort` with ratio 1, draw `1/2`. -/
theorem Abort_Handler_triggered_witness :
    decide (1 : ℚ) (1/2) = true ∧
    (Abort.Handler ⟨1⟩ [1/2] =
        some ⟨[], Outcome.panicked PanicValue.errAbortHandler, []⟩ ∧
     (∀ t, Abort.Handler ⟨1⟩ [1/2] = some t →
        t.events = [] ∧ t.outcome ≠ Outcome.normal)) :=
  ⟨by norm_num [fault.decide],
   Abort_Handler_triggered ⟨1⟩ (1/2) [] (by norm_num [fault.decide])⟩

/-- C5: a triggered `Delay` sleeps for `Duration` before the downstream call
when `Afterward` is false, and after it when `Afterward` is true; in both
cases downstream is called exactly once and `Delay` itself writes no status
and no body and returns normally. -/
theorem Delay_Handle_triggered (f : Delay) (v : ℚ) (rest : List ℚ)
    (h : decide f.RandomRatio v = true) :
    (f.Afterward = false →
      f.Handle (v :: rest) =
        some ⟨[Event.sleep f.Duration, Event.callDownstream], Outcome.normal, rest⟩) ∧
    (f.Afterward = true →
      f.Handle (v :: rest) =
        some ⟨[Event.callDownstream, Event.sleep f.Duration], Outcome.normal, rest⟩) ∧
    (∀ t, f.Handle (v :: rest) = some t →
      t.events.count Event.callDownstream = 1 ∧
      (∀ c, Event.writeHeader c ∉ t.events) ∧
      (∀ s, Event.write s ∉ t.events) ∧
      t.outcome = Outcome.normal) := by
  cases hA : f.Afterward
  · have he : f.Handle (v :: rest) =
        some ⟨[Event.sleep f.Duration, Event.callDownstream], Outcome.normal, rest⟩ := by
      simp [Delay.Handle, h, hA]
    refine ⟨fun _ => he, fun hc => Bool.noConfusion hc, ?_⟩
    intro t ht
    rw [he] at ht
    injection ht with ht
    subst ht
    refine ⟨by simp [List.count_cons], fun c => by simp, fun s => by simp, rfl⟩
  · have he : f.Handle (v :: rest) =
        some ⟨[Event.callDownstream, Event.sleep f.Duration], Outcome.normal, rest⟩ := by
      simp [Delay.Handle, h, hA]
    refine ⟨fun hc => Bool.noConfusion hc, fun _ => he, ?_⟩
    intro t ht
    rw [he] at ht
    injection ht with ht
    subst ht
    refine ⟨by simp [List.count_cons], fun c => by simp, fun s => by simp, rfl⟩

/-- Witness for C5: `Delay` of 50 (ns) with `Afterward = false`, ratio 1,
draw `1/2`. -/
theorem Delay_Handle_triggered_witness :
    decide (1 : ℚ) (1/2) = true ∧
    (((false : Bool) = false →
       Delay.Handle ⟨50, false, 1⟩ [1/2] =
         some ⟨[Event.sleep 50, Event.callDownstream], Outcome.normal, []⟩) ∧
     ((false : Bool) = true →
       Delay.Handle ⟨50, false, 1⟩ [1/2] =
         some ⟨[Event.callDownstream, Event.sleep 50], Outcome.normal, []⟩) ∧
     (∀ t, Delay.Handle ⟨50, false, 1⟩ [1/2] = some t →
       t.events.count Event.callDownstream = 1 ∧
       (∀ c, Event.writeHeader c ∉ t.events) ∧
       (∀ s, Event.write s ∉ t.events) ∧
       t.outcome = Outcome.normal)) :=
  ⟨by norm_num [fault.decide],
   Delay_Handle_triggered ⟨50, false, 1⟩ (1/2) [] (by norm_num [fault.decide])⟩

/-- C6: a triggered `DelayWithError` sleeps for `Duration` and then performs
exactly the `Error` behaviour — status `StatusCode`, body `StatusText` or
the placeholder when empty — without ever calling downstream. -/
theorem DelayWithError_Handler_triggered (f : DelayWithError) (v : ℚ) (rest : List ℚ)
    (h : decide f.RandomRatio v = true) :
    f.Handler (v :: rest) =
      some ⟨[Event.sleep f.Duration, Event.writeHeader f.StatusCode,
             Event.write (if f.StatusText = "" then placeholderStatusText else f.StatusText)],
            Outcome.normal, rest⟩ ∧
    (∀ t, f.Handler (v :: rest) = some t → Event.callDownstream ∉ t.events) := by
  have he : f.Handler (v :: rest) =
      some ⟨[Event.sleep f.Duration, Event.writeHeader f.StatusCode,
             Event.write (if f.StatusText = "" then placeholderStatusText else f.StatusText)],
            Outcome.normal, rest⟩ := by
    simp [DelayWithError.Handler, h]
  refine ⟨he, ?_⟩
  intro t ht
  rw [he] at ht
  injection ht with ht
  subst ht
  simp

/-- Witness for C6: `DelayWithError` of 20 (ns), status 500, text `"boom"`,
ratio 1, draw `1/2`. -/
theorem DelayWithError_Handler_triggered_witness :
    decide (1 : ℚ) (1/2) = true ∧
    (DelayWithError.Handler ⟨20, 500, "boom", 1⟩ [1/2] =
        some ⟨[Event.sleep 20, Event.writeHeader 500,
               Event.write (if ("boom" : String) = "" then placeholderStatusText else "boom")],
              Outcome.normal, []⟩ ∧
     (∀ t, DelayWithError.Handler ⟨20, 500, "boom", 1⟩ [1/2] = some t →
        Event.callDownstream ∉ t.events)) :=
  ⟨by norm_num [fault.decide],
   DelayWithError_Handler_triggered ⟨20, 500, "boom", 1⟩ (1/2) [] (by norm_num [fault.decide])⟩

/-- C7: a triggered `DelayWithAbort` sleeps for `Duration` and then performs
exactly the `Abort` behaviour — downstream never invoked, nothing written,
abnormal termination. -/
theorem DelayWithAbort_Handler_triggered (f : DelayWithAbort) (v : ℚ) (rest : List ℚ)
    (h : decide f.RandomRatio v = true) :
    f.Handler (v :: rest) =
      some ⟨[Event.sleep f.Duration], Outcome.panicked PanicValue.errAbortHandler, rest⟩ ∧
    (∀ t, f.Handler (v :: rest) = some t →
      Event.callDownstream ∉ t.events ∧
      (∀ c, Event.writeHeader c ∉ t.events) ∧
      (∀ s, Event.write s ∉ t.events) ∧
      t.outcome ≠ Outcome.normal) := by
  have he : f.Handler (v :: rest) =
      some ⟨[Event.sleep f.Duration], Outcome.panicked PanicValue.errAbortHandler, rest⟩ := by
    simp [DelayWithAbort.Handler, h]
  refine ⟨he, ?_⟩
  intro t ht
  rw [he] at ht
  injection ht with ht
  subst ht
  exact ⟨by simp, fun c => by simp, fun s => by simp, by simp⟩

/-- Witness for C7: `DelayWithAbort` of 30 (ns), ratio 1, draw `1/2`. -/
theorem DelayWithAbort_Handler_triggered_witness :
    decide (1 : ℚ) (1/2) = true ∧
    (DelayWithAbort.Handler ⟨30, 1⟩ [1/2] =
        some ⟨[Event.sleep 30], Outcome.panicked PanicValue.errAbortHandler, []⟩ ∧
     (∀ t, DelayWithAbort.Handler ⟨30, 1⟩ [1/2] = some t →
        Event.callDownstream ∉ t.events ∧
        (∀ c, Event.writeHeader c ∉ t.events) ∧
        (∀ s, Event.write s ∉ t.events) ∧
        t.outcome ≠ Outcome.normal)) :=
  ⟨by norm_num [fault.decide],
   DelayWithAbort_Handler_triggered ⟨30, 1⟩ (1/2) [] (by norm_num [fault.decide])⟩

/-- C8: whenever the decision does not trigger, every variant delegates to
downstream exactly once, with no sleep, no written status or body, and a
normal return — its trace is exactly the single downstream call, identical
to the variant being absent. -/
theorem not_triggered_passthrough (dur dur2 dur3 sc : Int) (aft : Bool) (st : String)
    (ratio v : ℚ) (rest : List ℚ)
    (h : decide ratio v = false) :
    Delay.Handle ⟨dur, aft, ratio⟩ (v :: rest) =
      some ⟨[Event.callDownstream], Outcome.normal, rest⟩ ∧
    Error.Handler ⟨sc, st, ratio⟩ (v :: rest) =
      some ⟨[Event.callDownstream], Outcome.normal, rest⟩ ∧
    DelayWithError.Handler ⟨dur2, sc, st, ratio⟩ (v :: rest) =
      some ⟨[Event.callDownstream], Outcome.normal, rest⟩ ∧
    Abort.Handler ⟨ratio⟩ (v :: rest) =
      some ⟨[Event.callDownstream], Outcome.normal, rest⟩ ∧
    DelayWithAbort.Handler ⟨dur3, ratio⟩ (v :: rest) =
      some ⟨[Event.callDownstream], Outcome.normal, rest⟩ := by
  refine ⟨?_, ?_, ?_, ?_, ?_⟩ <;>
    simp [Delay.Handle, Error.Handler, DelayWithError.Handler, Abort.Handler,
          DelayWithAbort.Handler, h]

/-- Witness for C8: every variant with ratio 0 on draw `1/2` passes through. -/
theorem not_triggered_passthrough_witness :
    decide (0 : ℚ) (1/2) = false ∧
    (Delay.Handle ⟨50, true, 0⟩ [1/2] =
        some ⟨[Event.callDownstream], Outcome.normal, []⟩ ∧
     Error.Handler ⟨503, "", 0⟩ [1/2] =
        some ⟨[Event.callDownstream], Outcome.normal, []⟩ ∧
     DelayWithError.Handler ⟨20, 503, "", 0⟩ [1/2] =
        some ⟨[Event.callDownstream], Outcome.normal, []⟩ ∧
     Abort.Handler ⟨0⟩ [1/2] =
        some ⟨[Event.callDownstream], Outcome.normal, []⟩ ∧
     DelayWithAbort.Handler ⟨30, 0⟩ [1/2] =
        some ⟨[Event.callDownstream], Outcome.normal, []⟩) :=
  ⟨by norm_num [fault.decide],
   not_triggered_passthrough 50 20 30 503 true "" 0 (1/2) [] (by norm_num [fault.decide])⟩

/-- C9: a triggered `Abort` or `DelayWithAbort` panics with exactly the
sentinel `http.ErrAbortHandler` and never with any other value. -/
theorem abort_panics_only_errAbortHandler (a : Abort) (wa : DelayWithAbort)
    (v w : ℚ) (r1 r2 : List ℚ)
    (ha : decide a.RandomRatio v = true) (hw : decide wa.RandomRatio w = true) :
    (a.Handler (v :: r1)).map Trace.outcome =
      some (Outcome.panicked PanicValue.errAbortHandler) ∧
    (wa.Handler (w :: r2)).map Trace.outcome =
      some (Outcome.panicked PanicValue.errAbortHandler) := by
  constructor
  · simp [Abort.Handler, ha]
  · simp [DelayWithAbort.Handler, hw]

/-- Witness for C9: `Abort` and `DelayWithAbort` with ratio 1 on draw `1/2`. -/
theorem abort_panics_only_errAbortHandler_witness :
    decide (1 : ℚ) (1/2) = true ∧
    ((Abort.Handler ⟨1⟩ [1/2]).map Trace.outcome =
        some (Outcome.panicked PanicValue.errAbortHandler) ∧
     (DelayWithAbort.Handler ⟨30, 1⟩ [1/2]).map Trace.outcome =
        some (Outcome.panicked PanicValue.errAbortHandler)) :=
  ⟨by norm_num [fault.decide],
   abort_panics_only_errAbortHandler ⟨1⟩ ⟨30, 1⟩ (1/2) (1/2) [] []
     (by norm_num [fault.decide]) (by norm_num [fault.decide])⟩

/-- C10: every variant's handler consumes exactly one value from the random
source per request — the remaining draws are the tail of the incoming list
whether or not the fault triggers, and a handler cannot run with no draw
available. -/
theorem handlers_consume_one_draw (D : Delay) (E : Error) (WE : DelayWithError)
    (A : Abort) (WA : DelayWithAbort) (v : ℚ) (rest : List ℚ) :
    (D.Handle (v :: rest)).map Trace.rands = some rest ∧
    (E.Handler (v :: rest)).map Trace.rands = some rest ∧
    (WE.Handler (v :: rest)).map Trace.rands = some rest ∧
    (A.Handler (v :: rest)).map Trace.rands = some rest ∧
    (WA.Handler (v :: rest)).map Trace.rands = some rest ∧
    D.Handle [] = none ∧ E.Handler [] = none ∧ WE.Handler [] = none ∧
    A.Handler [] = none ∧ WA.Handler [] = none := by
  refine ⟨?_, ?_, ?_, ?_, ?_, rfl, rfl, rfl, rfl, rfl⟩
  · cases hD : fault.decide D.RandomRatio v <;> cases hA : D.Afterward <;>
      simp [Delay.Handle, hD, hA]
  · cases hE : fault.decide E.RandomRatio v <;> simp [Error.Handler, hE]
  · cases hW : fault.decide WE.RandomRatio v <;> simp [DelayWithError.Handler, hW]
  · cases hA : fault.decide A.RandomRatio v <;> simp [Abort.Handler, hA]
  · cases hW : fault.decide WA.RandomRatio v <;> simp [DelayWithAbort.Handler, hW]

end fault
